import Mathlib

/-!
Shallow embedding of `real-time_settings.py` (filipnyquist/admintools):
a CLI script that applies/reverts a fixed ordered list of "settings
modules" for a real-time Linux mode.  We embed the state store
(snapshot temp file), the command runner (`execute_safely`), the
service controller (`service`), the `IntelPState` turbo-boost module,
and the driver (argument handling, `--list`, `--ignore` filtering,
on/off execution), and prove or refute the frozen claims about them.
-/

namespace RtSettings

/-- Python values we need: strings, ints and `None`. -/
inductive PyVal where
  | str (s : String)
  | int (n : Int)
  | nonePy
  deriving DecidableEq, Repr

/-- Python `str(v)` on the values we model. -/
def pyStr : PyVal → String
  | .str s => s
  | .int n => toString n
  | .nonePy => "None"

/-- Python truthiness on the values we model: `None`, `0` and `""` are falsy. -/
def pyTruthy : PyVal → Bool
  | .str s => s ≠ ""
  | .int n => n ≠ 0
  | .nonePy => false

/-- Python `a or b`: `b` when `a` is falsy, else `a`. -/
def pyOr (a b : PyVal) : PyVal :=
  if pyTruthy a then a else b

/-- `os.path.join(a, b)` for the two-argument case: an absolute `b`
discards `a`. -/
def pathJoin (a b : String) : String :=
  if b.startsWith "/" then b
  else if a.endsWith "/" then a ++ b
  else a ++ "/" ++ b

/-! ## Python dict as an association list (insertion order preserved) -/

/-- `d.get(key, default)` on a Python dict represented as an
association list: the value at the first (unique) matching key, else
the default. -/
def dictGet (m : List (String × String)) (k : String) (d : Option String) :
    Option String :=
  match m with
  | [] => d
  | (k', v) :: rest => if k' = k then some v else dictGet rest k d

/-- `d[key] = value` on a Python dict: replace in place if present,
append otherwise. -/
def dictSet (m : List (String × String)) (k v : String) :
    List (String × String) :=
  match m with
  | [] => [(k, v)]
  | (k', v') :: rest =>
    if k' = k then (k, v) :: rest else (k', v') :: dictSet rest k v

theorem dictGet_dictSet_same (m : List (String × String)) (k v : String)
    (d : Option String) : dictGet (dictSet m k v) k d = some v := by
  induction m with
  | nil => simp [dictSet, dictGet]
  | cons hd tl ih =>
    obtain ⟨k', v'⟩ := hd
    by_cases h : k' = k
    · simp [dictSet, dictGet, h]
    · simp [dictSet, dictGet, h, ih]

theorem dictGet_dictSet_other (m : List (String × String)) (k v k' : String)
    (d : Option String) (hne : k' ≠ k) :
    dictGet (dictSet m k v) k' d = dictGet m k' d := by
  have hkk : ¬ k = k' := fun h => hne h.symm
  induction m with
  | nil => simp [dictSet, dictGet, hkk]
  | cons hd tl ih =>
    obtain ⟨k0, v0⟩ := hd
    by_cases h : k0 = k
    · subst h
      simp [dictSet, dictGet, hkk]
    · simp [dictSet, dictGet, h, ih]

/-! ## State store (`ActionBase._load_all_from_temp`, `load_from_temp`,
`store_to_temp`)

The snapshot lives in one temp file (`TEMPFILE`) holding a JSON
object.  We model the file as absent, malformed, or holding a mapping;
`json_dump`/`json_load` round-trip the mapping. -/

/-- The snapshot temp file: absent, unparsable, or a JSON object
(string-to-string mapping). -/
inductive TempFile where
  | absent
  | malformed
  | mapping (m : List (String × String))
  deriving DecidableEq, Repr

/-- `ActionBase._load_all_from_temp`: parse the temp file; on
`FileNotFoundError` or `ValueError` return `{}`. -/
def load_all_from_temp : TempFile → List (String × String)
  | .absent => []
  | .malformed => []
  | .mapping m => m

/-- `ActionBase.load_from_temp(key, default)`: the body evaluates
`self._load_all_from_temp().get(key, default)` but has no `return`
statement, so the method always returns `None` (embedded as
`Option.none`). -/
def load_from_temp (tf : TempFile) (key : String) (default : Option String) :
    Option String :=
  let _discarded := dictGet (load_all_from_temp tf) key default
  none

/-- `ActionBase.store_to_temp(key, value)`: read the whole snapshot,
update one key, write the whole snapshot back. -/
def store_to_temp (tf : TempFile) (key value : String) : TempFile :=
  .mapping (dictSet (load_all_from_temp tf) key value)

/-! ## Observable side effects

Real-world actions of the script are recorded as a trace of events:
spawning an external process (`subprocess.call` / `check_output`),
writing a file, printing to stdout, and log messages. -/

/-- One observable action of the script. -/
inductive Event where
  | procCall (cmd : List String)
  | fsWrite (path content : String)
  | printOut (line : String)
  | logMsg (level msg : String)
  deriving DecidableEq, Repr

/-- Whether an event spawns an external process. -/
def Event.isProcCall : Event → Bool
  | .procCall _ => true
  | _ => false

/-- Whether an event writes the real filesystem. -/
def Event.isFsWrite : Event → Bool
  | .fsWrite _ _ => true
  | _ => false

/-! ## Command runner (`ActionBase.execute_safely`)

`execute_safely(function, *args)` prints the pretty-printed call and
returns when `--simulate` is set; otherwise it logs at debug level and
invokes the function.  We embed it as a trace combinator: the wrapped
function's own effects are passed in as `realEvents` and only emitted
on the non-simulate branch. -/

/-- `ActionBase.execute_safely`: the trace it produces, given the
pretty-printed call text and the events the wrapped call would
produce when actually executed. -/
def execute_safely (simulate : Bool) (prettyCall : String)
    (realEvents : List Event) : List Event :=
  if simulate then
    [.printOut ("simulating - would execute: " ++ prettyCall)]
  else
    .logMsg "debug" ("executing " ++ prettyCall) :: realEvents

/-! ## Service controller (`ActionBase.service`)

On first use it shells out to `systemctl list-unit-files` — note:
unconditionally, before and regardless of the simulate check — and
caches the parsed service names.  A name absent from the cache is
logged and skipped; otherwise `systemctl <action> <name>` goes through
`execute_safely`. -/

/-- `ActionBase.service(name, action)`.  `cache` is
`ActionBase._available_services_cache` (`none` when the attribute is
not yet set), `available` is what parsing `systemctl list-unit-files`
output yields.  Returns the updated cache and the event trace. -/
def service (simulate : Bool) (cache : Option (List String))
    (available : List String) (name action : String) :
    Option (List String) × List Event :=
  let (cache', initEvents) :=
    match cache with
    | none =>
      (available,
       [Event.procCall ["systemctl", "list-unit-files"],
        Event.logMsg "debug" "found services"])
    | some l => (l, [])
  if name ∈ cache' then
    (some cache',
     initEvents ++
       execute_safely simulate
         ("subprocess.call(('systemctl', " ++ action.quote ++ ", "
           ++ name.quote ++ "))")
         [.procCall ["systemctl", action, name]])
  else
    (some cache',
     initEvents ++
       [.logMsg "info" ("service '" ++ name ++ "' does not seem to exist")])

/-! ## Turbo boost module (`IntelPState`)

System state touched by this module: the real filesystem (a mapping
from path to content, `dictGet`/`dictSet`) and the snapshot temp
file. -/

/-- Filesystem plus snapshot temp file, as seen by `IntelPState`. -/
structure RtState where
  fs : List (String × String)
  temp : TempFile
  deriving DecidableEq, Repr

/-- Python exceptions the embedded code can raise. -/
inductive PyError where
  | attributeError (name : String)
  | fileNotFound (path : String)
  deriving DecidableEq, Repr

/-- Class attributes resolvable on an `IntelPState` instance: the
three constants of the class body plus `TEMPFILE` inherited from
`ActionBase`.  `PSTATE_BASE_PATH` is referenced by two methods but
defined nowhere, so lookup yields `none` (an `AttributeError` at
runtime). -/
def IntelPState.getAttr : String → Option PyVal
  | "PSTATE_NO_TURBO_FILE_NAME" =>
    some (.str "/sys/devices/system/cpu/intel_pstate/no_turbo")
  | "PSTATE_NO_TURBO_ON" => some (.int 0)
  | "PSTATE_NO_TURBO_OFF_DEFAULT" => some (.int 1)
  | "TEMPFILE" => some (.str "/tmp/real-time_settings")
  | _ => none

/-- `IntelPState.PSTATE_NO_TURBO_FILE_NAME`. -/
def IntelPState.PSTATE_NO_TURBO_FILE_NAME : String :=
  "/sys/devices/system/cpu/intel_pstate/no_turbo"

/-- `IntelPState._store_current_and_replace(file_name, value)`:
`path.join(self.PSTATE_BASE_PATH, file_name)` raises
`AttributeError` (the attribute is never defined), so on the
non-simulate path nothing after that line runs.  The remainder is
embedded faithfully for the (dead) case the lookup succeeds: read the
first line of the file, snapshot it, overwrite the file. -/
def IntelPState.store_current_and_replace (st : RtState)
    (file_name : String) (value : PyVal) : Except PyError Unit × RtState :=
  match IntelPState.getAttr "PSTATE_BASE_PATH" with
  | none => (.error (.attributeError "PSTATE_BASE_PATH"), st)
  | some base =>
    let file_path := pathJoin (pyStr base) file_name
    match dictGet st.fs file_path none with
    | none => (.error (.fileNotFound file_path), st)
    | some content =>
      let content := content.takeWhile (· ≠ '\n') |>.trim
      let st' := { st with temp := store_to_temp st.temp file_path content }
      (.ok (), { st' with fs := dictSet st'.fs file_path (pyStr value) })

/-- `IntelPState._restore_or_set(file_name, default)`: again raises
`AttributeError` on the `PSTATE_BASE_PATH` lookup.  The dead remainder
is embedded faithfully: it loads the snapshot under key `file_name`
(not `file_path`) via `load_from_temp` and writes
`str(loaded or default)`. -/
def IntelPState.restore_or_set (st : RtState) (file_name : String)
    (default : PyVal) : Except PyError Unit × RtState :=
  match IntelPState.getAttr "PSTATE_BASE_PATH" with
  | none => (.error (.attributeError "PSTATE_BASE_PATH"), st)
  | some base =>
    let file_path := pathJoin (pyStr base) file_name
    let loaded :=
      match load_from_temp st.temp file_name none with
      | none => PyVal.nonePy
      | some s => PyVal.str s
    (.ok (),
     { st with fs := dictSet st.fs file_path (pyStr (pyOr loaded default)) })

/-- `IntelPState.rt_settings_on`: `execute_safely` around
`_store_current_and_replace(PSTATE_NO_TURBO_FILE_NAME, 0)`. -/
def IntelPState.rt_settings_on (simulate : Bool) (st : RtState) :
    Except PyError Unit × RtState × List Event :=
  if simulate then
    (.ok (), st,
     [.printOut "simulating - would execute: _store_current_and_replace"])
  else
    let (r, st') :=
      IntelPState.store_current_and_replace st
        IntelPState.PSTATE_NO_TURBO_FILE_NAME (.int 0)
    (r, st', [.logMsg "debug" "executing _store_current_and_replace"])

/-- `IntelPState.rt_settings_off`: `execute_safely` around
`_restore_or_set(PSTATE_NO_TURBO_FILE_NAME, 1)`. -/
def IntelPState.rt_settings_off (simulate : Bool) (st : RtState) :
    Except PyError Unit × RtState × List Event :=
  if simulate then
    (.ok (), st,
     [.printOut "simulating - would execute: _restore_or_set"])
  else
    let (r, st') :=
      IntelPState.restore_or_set st
        IntelPState.PSTATE_NO_TURBO_FILE_NAME (.int 1)
    (r, st', [.logMsg "debug" "executing _restore_or_set"])

/-! ## Driver (lines 227-259)

Order of operations in the script: handle `--list` (print module names
and `exit(0)`) first; then resolve `--ignore` (unknown leftover names
are fatal, `exit(1)`); then run `rt_settings_on` / `rt_settings_off`
on every remaining module in registration order, or print a usage hint
when no mode was given. -/

/-- The registration-order module names (each class appends itself to
`settings_modules`; listing prints `__name__`). -/
def settings_module_names : List String :=
  ["CheckForRealTimeKernel", "Cron", "Tlp", "FrequencyScaling", "IntelPState"]

/-- The positional `on_or_off` argument (argparse restricts it to
these two choices when present). -/
inductive Mode where
  | on
  | off
  deriving DecidableEq, Repr

/-- The parsed command line. -/
structure CliArgs where
  debug : Bool
  verbose : Bool
  simulate : Bool
  list : Bool
  ignore : List String
  on_or_off : Option Mode
  deriving DecidableEq, Repr

/-- The ignore-resolution loop: for each registered module in order,
if its name is in the (mutating) ignore list, remove the module from
the unignored copy and remove the first occurrence of the name from
the ignore list.  Returns the final unignored modules and the leftover
ignore names. -/
def ignoreLoop : List String → List String → List String →
    List String × List String
  | [], unignored, ignore => (unignored, ignore)
  | m :: rest, unignored, ignore =>
    if m ∈ ignore then ignoreLoop rest (unignored.erase m) (ignore.erase m)
    else ignoreLoop rest unignored ignore

/-- What one run of the script does after argument parsing. -/
inductive DriverOutcome where
  | listed (printedLines : List String)
  | ignoreError (remaining : List String)
  | applied (mode : Mode) (executed : List String)
  | usageHint
  deriving DecidableEq, Repr

/-- The process exit code of each outcome: `exit(0)` after listing,
`exit(1)` on unknown ignore names, falling off the end otherwise. -/
def exitCodeOf : DriverOutcome → Nat
  | .listed _ => 0
  | .ignoreError _ => 1
  | .applied _ _ => 0
  | .usageHint => 0

/-- The modules whose `rt_settings_on`/`rt_settings_off` got called,
in order. -/
def executedOf : DriverOutcome → List String
  | .applied _ l => l
  | _ => []

/-- Lines 227-259: the driver. -/
def driver (args : CliArgs) : DriverOutcome :=
  if args.list then .listed settings_module_names
  else
    let resolved :=
      ignoreLoop settings_module_names settings_module_names args.ignore
    if resolved.2 ≠ [] then .ignoreError resolved.2
    else
      match args.on_or_off with
      | some m => .applied m resolved.1
      | none => .usageHint

/-- A name in the ignore list that matches no module survives the
resolution loop. -/
theorem mem_ignoreLoop_snd (mods : List String) (u ignore : List String)
    (n : String) (hn : n ∈ ignore) (hmods : n ∉ mods) :
    n ∈ (ignoreLoop mods u ignore).2 := by
  induction mods generalizing u ignore with
  | nil => simpa [ignoreLoop] using hn
  | cons m rest ih =>
    have hnm : n ≠ m := fun h => hmods (h ▸ List.mem_cons_self m rest)
    have hrest : n ∉ rest := fun h => hmods (List.mem_cons_of_mem m h)
    by_cases h : m ∈ ignore
    · simp only [ignoreLoop, if_pos h]
      exact ih _ _ ((List.mem_erase_of_ne hnm).mpr hn) hrest
    · simp only [ignoreLoop, if_neg h]
      exact ih _ _ hn hrest

/-- Shared helper: an unknown ignore name (without `--list`) makes the
driver exit 1 and execute nothing. -/
theorem driver_unknown_ignore (args : CliArgs) (n : String)
    (hn : n ∈ args.ignore) (hunk : n ∉ settings_module_names)
    (hlist : args.list = false) :
    exitCodeOf (driver args) = 1 ∧ executedOf (driver args) = [] := by
  have hmem :
      n ∈ (ignoreLoop settings_module_names settings_module_names
            args.ignore).2 :=
    mem_ignoreLoop_snd _ _ _ _ hn hunk
  have hne :
      (ignoreLoop settings_module_names settings_module_names
        args.ignore).2 ≠ [] := by
    intro h
    rw [h] at hmem
    exact List.not_mem_nil n hmem
  simp [driver, hlist, hne, exitCodeOf, executedOf]

/-! ## Claim theorems -/

/-- C2: the claim says `load_from_temp(k, d)` returns the snapshot
value for `k` (or `d` when absent); in the code the method body
computes `.get(key, default)` but has no `return`, so it returns
`None`.  Evaluated at the failing input: snapshot `{"k": "v"}`, key
`"k"`, default `"d"`: the method returns `None` even though the
discarded `.get` expression evaluates to `"v"`. -/
theorem load_from_temp_returns_none_despite_stored_value :
    load_from_temp (.mapping [("k", "v")]) "k" (some "d") = none ∧
    dictGet (load_all_from_temp (.mapping [("k", "v")])) "k" (some "d") =
      some "v" := by
  exact ⟨rfl, rfl⟩

/-- C7: `store_to_temp(k, v)` followed by loading the whole snapshot
yields a mapping containing k ↦ v, and every other key keeps its
prior value. -/
theorem store_to_temp_roundtrip (tf : TempFile) (k v k' : String)
    (hne : k' ≠ k) :
    dictGet (load_all_from_temp (store_to_temp tf k v)) k none = some v ∧
    dictGet (load_all_from_temp (store_to_temp tf k v)) k' none =
      dictGet (load_all_from_temp tf) k' none := by
  constructor
  · simp [store_to_temp, load_all_from_temp, dictGet_dictSet_same]
  · simp [store_to_temp, load_all_from_temp,
      dictGet_dictSet_other _ _ _ _ _ hne]

/-- Witness for C7 at snapshot `{"a": "1"}`, storing `"b" ↦ "2"`. -/
theorem store_to_temp_roundtrip_witness :
    dictGet (load_all_from_temp (store_to_temp (.mapping [("a", "1")])
      "b" "2")) "b" none = some "2" ∧
    dictGet (load_all_from_temp (store_to_temp (.mapping [("a", "1")])
      "b" "2")) "a" none =
      dictGet (load_all_from_temp (.mapping [("a", "1")])) "a" none :=
  store_to_temp_roundtrip (.mapping [("a", "1")]) "b" "2" "a" (by decide)

/-- C6: with the unit-file cache populated and the name absent from
it, `service` emits exactly one informational log event — so no
process invocation, no filesystem write, no exception — and leaves
the cache unchanged. -/
theorem service_absent_name_noop (simulate : Bool)
    (cache available : List String) (name action : String)
    (h : name ∉ cache) :
    service simulate (some cache) available name action =
      (some cache,
       [.logMsg "info" ("service '" ++ name ++ "' does not seem to exist")]) ∧
    ((service simulate (some cache) available name action).2.any
      Event.isProcCall) = false := by
  have heq : service simulate (some cache) available name action =
      (some cache,
       [.logMsg "info" ("service '" ++ name ++ "' does not seem to exist")]) := by
    simp [service, h]
  refine ⟨heq, ?_⟩
  rw [heq]
  rfl

/-- Witness for C6: cache `["cron", "crond"]`, name `"tlp"`. -/
theorem service_absent_name_noop_witness :
    service false (some ["cron", "crond"]) [] "tlp" "start" =
      (some ["cron", "crond"],
       [.logMsg "info" "service 'tlp' does not seem to exist"]) ∧
    ((service false (some ["cron", "crond"]) [] "tlp" "start").2.any
      Event.isProcCall) = false :=
  service_absent_name_noop false ["cron", "crond"] [] "tlp" "start"
    (by decide)

/-- C9: with simulate off, both turbo-module entry points raise
`AttributeError("PSTATE_BASE_PATH")` before touching any file or
snapshot entry: the result is the error and the state (filesystem and
snapshot) is returned unchanged. -/
theorem intel_pstate_raises_attribute_error (st : RtState) :
    IntelPState.rt_settings_on false st =
      (.error (.attributeError "PSTATE_BASE_PATH"), st,
       [.logMsg "debug" "executing _store_current_and_replace"]) ∧
    IntelPState.rt_settings_off false st =
      (.error (.attributeError "PSTATE_BASE_PATH"), st,
       [.logMsg "debug" "executing _restore_or_set"]) := by
  exact ⟨rfl, rfl⟩

/-- The failing input for C1: the snapshot already holds the
pre-apply no-turbo value "0" and the control file currently reads
"1". -/
def turboRevertState : RtState :=
  { fs := [(IntelPState.PSTATE_NO_TURBO_FILE_NAME, "1")],
    temp := .mapping [(IntelPState.PSTATE_NO_TURBO_FILE_NAME, "0")] }

/-- C1: the claim says revert restores the no-turbo file to its
pre-apply content from the snapshot.  Evaluated at the failing input
(snapshot maps the control file to "0", file reads "1"):
`rt_settings_off` raises `AttributeError` and leaves the file at "1";
moreover `load_from_temp` returns `None` on the snapshot entry, so
even the would-be write path would use the hardcoded default rather
than the snapshot value. -/
theorem turbo_revert_does_not_restore :
    (IntelPState.rt_settings_off false turboRevertState).1 =
      .error (.attributeError "PSTATE_BASE_PATH") ∧
    (IntelPState.rt_settings_off false turboRevertState).2.1 =
      turboRevertState ∧
    dictGet turboRevertState.fs IntelPState.PSTATE_NO_TURBO_FILE_NAME none =
      some "1" ∧
    load_from_temp turboRevertState.temp
      IntelPState.PSTATE_NO_TURBO_FILE_NAME none = none := by
  exact ⟨rfl, rfl, rfl, rfl⟩

/-- Events permissible under `--simulate`: printed text, log lines,
and the one real process call the code still makes (the service
controller's cache-population call to list unit files). -/
def simAllowedEvent : Event → Bool
  | .procCall cmd => decide (cmd = ["systemctl", "list-unit-files"])
  | .fsWrite _ _ => false
  | .printOut _ => true
  | .logMsg _ _ => true

/-- C3 counterexample: under `--simulate`, a service-controller call
with a cold cache still spawns a real process
(`systemctl list-unit-files`), so simulate mode does not only emit
textual descriptions on every path through the service controller. -/
theorem simulate_service_spawns_process :
    ((service true none ["cron", "crond"] "cron" "stop").2.any
      Event.isProcCall) = true := by
  rfl

/-- C3 amended: under `--simulate`, `execute_safely` never runs the
wrapped call (its trace is print-only), the turbo module leaves the
state unchanged, and the service controller performs no filesystem
write and no process call other than the cache-population
`systemctl list-unit-files` query. -/
theorem simulate_no_real_actions (cache : Option (List String))
    (available : List String) (name action pretty : String)
    (realEvents : List Event) (st : RtState) :
    ((execute_safely true pretty realEvents).all
      (fun e => !e.isProcCall && !e.isFsWrite)) = true ∧
    ((service true cache available name action).2.all simAllowedEvent)
      = true ∧
    (IntelPState.rt_settings_on true st).2.1 = st ∧
    (IntelPState.rt_settings_off true st).2.1 = st := by
  refine ⟨rfl, ?_, rfl, rfl⟩
  cases cache with
  | none =>
    by_cases h : name ∈ available <;>
      simp [service, h, execute_safely, simAllowedEvent]
  | some l =>
    by_cases h : name ∈ l <;>
      simp [service, h, execute_safely, simAllowedEvent]

/-- C4: any `--ignore` name matching no registered module makes the
run exit with code 1 without executing any module. -/
theorem unknown_ignore_is_fatal (args : CliArgs) (n : String)
    (hn : n ∈ args.ignore) (hunk : n ∉ settings_module_names)
    (hlist : args.list = false) :
    exitCodeOf (driver args) = 1 ∧ executedOf (driver args) = [] :=
  driver_unknown_ignore args n hn hunk hlist

/-- Witness for C4: `--ignore Bogus on`. -/
theorem unknown_ignore_is_fatal_witness :
    exitCodeOf (driver ⟨false, false, false, false, ["Bogus"], some .on⟩)
      = 1 ∧
    executedOf (driver ⟨false, false, false, false, ["Bogus"], some .on⟩)
      = [] :=
  unknown_ignore_is_fatal ⟨false, false, false, false, ["Bogus"], some .on⟩
    "Bogus" (by decide) (by decide) rfl

/-- C5: for every registered module name N, `--ignore N` executes
exactly the registration-order list with N removed, others keeping
their relative order. -/
theorem ignore_removes_exactly_one (d v s : Bool) (m : Mode) (N : String)
    (hN : N ∈ settings_module_names) :
    driver ⟨d, v, s, false, [N], some m⟩ =
      .applied m (settings_module_names.erase N) := by
  fin_cases hN <;> rfl

/-- Witness for C5 at N = "Cron". -/
theorem ignore_removes_exactly_one_witness :
    driver ⟨false, false, false, false, ["Cron"], some .on⟩ =
      .applied .on (settings_module_names.erase "Cron") :=
  ignore_removes_exactly_one false false false .on "Cron" (by decide)

/-- C8: `--list` with nothing ignored prints exactly the five module
names in registration order (one print per module), exits 0, and
executes no module. -/
theorem list_prints_five_modules (d v s : Bool) (m : Option Mode) :
    driver ⟨d, v, s, true, [], m⟩ =
      .listed ["CheckForRealTimeKernel", "Cron", "Tlp", "FrequencyScaling",
               "IntelPState"] ∧
    exitCodeOf (driver ⟨d, v, s, true, [], m⟩) = 0 ∧
    executedOf (driver ⟨d, v, s, true, [], m⟩) = [] ∧
    settings_module_names.length = 5 := by
  exact ⟨rfl, rfl, rfl, rfl⟩

/-- C10: `--list` is handled before ignore-name validation: with
`--list`, the run prints the names and exits 0 even when `--ignore`
holds an unknown name; the same arguments without `--list` exit 1. -/
theorem list_handled_before_ignore_validation (args : CliArgs) (n : String)
    (hlist : args.list = true) (hn : n ∈ args.ignore)
    (hunk : n ∉ settings_module_names) :
    driver args = .listed settings_module_names ∧
    exitCodeOf (driver args) = 0 ∧
    exitCodeOf (driver { args with list := false }) = 1 := by
  refine ⟨?_, ?_, ?_⟩
  · simp [driver, hlist]
  · simp [driver, hlist, exitCodeOf]
  · exact (driver_unknown_ignore { args with list := false } n hn hunk
      rfl).1

/-- Witness for C10: `--list --ignore Bogus`. -/
theorem list_handled_before_ignore_validation_witness :
    driver ⟨false, false, false, true, ["Bogus"], none⟩ =
      .listed settings_module_names ∧
    exitCodeOf (driver ⟨false, false, false, true, ["Bogus"], none⟩) = 0 ∧
    exitCodeOf (driver ⟨false, false, false, false, ["Bogus"], none⟩) = 1 :=
  list_handled_before_ignore_validation
    ⟨false, false, false, true, ["Bogus"], none⟩ "Bogus" rfl (by decide)
    (by decide)

end RtSettings
